import Mathlib

/-!
Shallow embedding of `src/indicators/relative_moving_average.rs` from the
`ta-rs` repository.

The Rust `f64` fields are modelled as rationals (`ℚ`): every computation the
claims exercise is exact dyadic arithmetic (the weight `1 / (period + 1)` for
the concrete periods used, products and sums of dyadic rationals within
double precision), so the rational model agrees with the IEEE-754 run on the
claimed inputs, and the algebraic structure of the update rule is captured
exactly.  The Rust `u32` period is modelled as `Nat`; the constructor only
pattern-matches on zero and never performs `u32` arithmetic that could wrap,
so no modular reduction is needed.
-/

namespace TaRs

/-- Error kinds of the crate's `errors` module; only `InvalidParameter` is
used by this indicator. -/
inductive ErrorKind where
  | InvalidParameter
deriving DecidableEq, Repr

/-- The crate's `Error` type, built from a kind via `Error::from_kind`. -/
structure Error where
  kind : ErrorKind
deriving DecidableEq, Repr

/-- `Error::from_kind` -/
def Error.from_kind (k : ErrorKind) : Error := ⟨k⟩

/-- The `RelativeMovingAverage` struct: `length: u32`, `k: f64`,
`current: f64`, `is_new: bool`. -/
structure RelativeMovingAverage where
  length : Nat
  k : ℚ
  current : ℚ
  is_new : Bool
deriving DecidableEq, Repr

namespace RelativeMovingAverage

/-- `RelativeMovingAverage::new(length)`: rejects `length = 0` with
`InvalidParameter`, otherwise builds the state with
`k = 1 / (length + 1)`, `current = 0`, `is_new = true`. -/
def new (length : Nat) : Except Error RelativeMovingAverage :=
  match length with
  | 0 => Except.error (Error.from_kind ErrorKind.InvalidParameter)
  | _ =>
    Except.ok { length := length, k := 1 / ((length : ℚ) + 1),
                current := 0, is_new := true }

/-- `Next<f64>::next`: the Rust method mutates `self` and returns the new
`self.current`; here it returns the output together with the updated state. -/
def next (s : RelativeMovingAverage) (input : ℚ) : ℚ × RelativeMovingAverage :=
  if s.is_new then
    let s' := { s with is_new := false, current := input }
    (s'.current, s')
  else
    let s' := { s with current := s.k * input + (1 - s.k) * s.current }
    (s'.current, s')

/-- `Reset::reset`: sets `current = 0.0` and `is_new = true`. -/
def reset (s : RelativeMovingAverage) : RelativeMovingAverage :=
  { s with current := 0, is_new := true }

/-- `Default::default`: `Self::new(9).unwrap()`.  The `error` branch models
the unreachable `unwrap` panic; `default_eq_new9` proves it is not taken. -/
def default : RelativeMovingAverage :=
  match new 9 with
  | Except.ok s => s
  | Except.error _ => { length := 0, k := 0, current := 0, is_new := true }

end RelativeMovingAverage

/-- The `Close` trait: a record type exposing a closing value. -/
class Close (T : Type) where
  close : T → ℚ

/-- `Next<&'a T>::next` for `T: Close`: extracts the closing value and
delegates to the `f64` entry point. -/
def RelativeMovingAverage.next_close {T : Type} [Close T]
    (s : RelativeMovingAverage) (input : T) : ℚ × RelativeMovingAverage :=
  s.next (Close.close input)

/-- A minimal structured record with a closing value, standing in for the
crate's bar type in concrete instantiations. -/
structure Bar where
  close : ℚ
deriving DecidableEq, Repr

instance : Close Bar := ⟨Bar.close⟩

/-- Feed a list of samples in order, keeping only the final state. -/
def RelativeMovingAverage.feedAll (s : RelativeMovingAverage) (xs : List ℚ) :
    RelativeMovingAverage :=
  xs.foldl (fun t x => (t.next x).2) s

/-- An operation on the smoother: one `next` call or one `reset` call. -/
inductive Op where
  | feed (x : ℚ)
  | reset
deriving DecidableEq, Repr

/-- Apply one operation to the state. -/
def RelativeMovingAverage.applyOp (s : RelativeMovingAverage) : Op → RelativeMovingAverage
  | Op.feed x => (s.next x).2
  | Op.reset => s.reset

/-- Apply a sequence of operations in order. -/
def RelativeMovingAverage.applyOps (s : RelativeMovingAverage) (ops : List Op) :
    RelativeMovingAverage :=
  ops.foldl RelativeMovingAverage.applyOp s

namespace RelativeMovingAverage

/- Helper lemmas shared by the claim theorems. -/

lemma new_pos (p : Nat) (hp : 1 ≤ p) :
    new p = Except.ok { length := p, k := 1 / ((p : ℚ) + 1),
                        current := 0, is_new := true } := by
  cases p with
  | zero => omega
  | succ n => rfl

lemma next_fst_of_is_new (s : RelativeMovingAverage) (x : ℚ)
    (h : s.is_new = true) : (s.next x).1 = x := by
  simp [next, h]

lemma next_state_k (s : RelativeMovingAverage) (x : ℚ) :
    (s.next x).2.k = s.k := by
  by_cases h : s.is_new <;> simp [next, h]

lemma next_state_is_new (s : RelativeMovingAverage) (x : ℚ) :
    (s.next x).2.is_new = false := by
  by_cases h : s.is_new <;> simp_all [next]

lemma next_of_seeded (s : RelativeMovingAverage) (x : ℚ)
    (h : s.is_new = false) :
    s.next x = (s.k * x + (1 - s.k) * s.current,
                { s with current := s.k * x + (1 - s.k) * s.current }) := by
  simp [next, h]

lemma feedAll_k (s : RelativeMovingAverage) (xs : List ℚ) :
    (feedAll s xs).k = s.k := by
  induction xs generalizing s with
  | nil => rfl
  | cons y ys ih =>
    show (feedAll ((s.next y).2) ys).k = s.k
    rw [ih]
    exact next_state_k s y

lemma feedAll_is_new (s : RelativeMovingAverage) (xs : List ℚ)
    (h : s.is_new = false) : (feedAll s xs).is_new = false := by
  induction xs generalizing s with
  | nil => exact h
  | cons y ys ih => exact ih ((s.next y).2) (next_state_is_new s y)

lemma applyOp_length (s : RelativeMovingAverage) (o : Op) :
    (s.applyOp o).length = s.length := by
  cases o with
  | feed x => by_cases h : s.is_new <;> simp [applyOp, next, h]
  | reset => rfl

lemma applyOp_k (s : RelativeMovingAverage) (o : Op) :
    (s.applyOp o).k = s.k := by
  cases o with
  | feed x => exact next_state_k s x
  | reset => rfl

lemma applyOps_length (s : RelativeMovingAverage) (ops : List Op) :
    (applyOps s ops).length = s.length := by
  induction ops generalizing s with
  | nil => rfl
  | cons o os ih =>
    show (applyOps (s.applyOp o) os).length = s.length
    rw [ih]
    exact applyOp_length s o

lemma applyOps_k (s : RelativeMovingAverage) (ops : List Op) :
    (applyOps s ops).k = s.k := by
  induction ops generalizing s with
  | nil => rfl
  | cons o os ih =>
    show (applyOps (s.applyOp o) os).k = s.k
    rw [ih]
    exact applyOp_k s o

end RelativeMovingAverage

/-- C2: on any state in the Unseeded condition (`is_new = true`), `next`
returns the input unchanged, stores it as `current`, and clears the
`is_new` flag. -/
theorem next_unseeded (s : RelativeMovingAverage) (x : ℚ)
    (h : s.is_new = true) :
    s.next x = (x, { s with current := x, is_new := false }) := by
  simp [RelativeMovingAverage.next, h]

/-- Witness for C2 at the freshly constructed period-3 state and input 7. -/
theorem next_unseeded_witness :
    RelativeMovingAverage.next
        { length := 3, k := 1/4, current := 0, is_new := true } 7 =
      (7, { length := 3, k := 1/4, current := 7, is_new := false }) :=
  next_unseeded { length := 3, k := 1/4, current := 0, is_new := true } 7 rfl

/-- C3: construction with period 0 fails with `InvalidParameter`; for every
period at least 1 (the whole remaining `u32` domain) construction succeeds,
yielding `k = 1 / (period + 1)`, `current = 0` and the Unseeded flag. -/
theorem new_spec (p : Nat) :
    (p = 0 → RelativeMovingAverage.new p =
      Except.error (Error.from_kind ErrorKind.InvalidParameter)) ∧
    (1 ≤ p → RelativeMovingAverage.new p =
      Except.ok { length := p, k := 1 / ((p : ℚ) + 1),
                  current := 0, is_new := true }) := by
  constructor
  · intro h
    subst h
    rfl
  · intro h
    exact RelativeMovingAverage.new_pos p h

/-- Witness for C3 at periods 0 and 1. -/
theorem new_spec_witness :
    RelativeMovingAverage.new 0 =
      Except.error (Error.from_kind ErrorKind.InvalidParameter) ∧
    RelativeMovingAverage.new 1 =
      Except.ok { length := 1, k := 1 / ((1 : ℚ) + 1),
                  current := 0, is_new := true } :=
  ⟨(new_spec 0).1 rfl, (new_spec 1).2 (by decide)⟩

/-- C4: from a fresh period-3 smoother (weight 1/4), the samples
2, 5, 1, 25/4 produce exactly 2, 11/4, 37/16, 211/64 — the rationals whose
`f64` values are 2.0, 2.75, 2.3125, 3.296875 (all computations are exact
dyadic arithmetic, so the `f64` run agrees). -/
theorem feed_sequence_period3 :
    (RelativeMovingAverage.new 3).map (fun s0 =>
      let r1 := s0.next 2
      let r2 := r1.2.next 5
      let r3 := r2.2.next 1
      let r4 := r3.2.next (25/4)
      [r1.1, r2.1, r3.1, r4.1]) =
    Except.ok [2, 11/4, 37/16, 211/64] := by
  show Except.map _
    (Except.ok (RelativeMovingAverage.mk 3 (1/((3:ℚ)+1)) 0 true)) = _
  simp [Except.map, RelativeMovingAverage.next]
  norm_num

/-- C5: `reset` clears `current` to 0, sets `is_new` back to `true`, leaves
`length` and `k` unchanged, and is idempotent; it is a total function, so
there is no error path. -/
theorem reset_spec (s : RelativeMovingAverage) :
    s.reset.current = 0 ∧ s.reset.is_new = true ∧
    s.reset.length = s.length ∧ s.reset.k = s.k ∧
    s.reset.reset = s.reset :=
  ⟨rfl, rfl, rfl, rfl, rfl⟩

/-- C6: feeding a structured record whose closing value is `c` returns the
same output and the same resulting state as feeding the raw value `c` from
the same prior state. -/
theorem next_close_delegates {T : Type} [Close T]
    (s : RelativeMovingAverage) (r : T) (c : ℚ)
    (h : Close.close r = c) :
    s.next_close r = s.next c := by
  rw [RelativeMovingAverage.next_close, h]

/-- Witness for C6: a `Bar` with closing value 2 fed to the fresh period-3
state. -/
theorem next_close_delegates_witness :
    RelativeMovingAverage.next_close
        { length := 3, k := 1/4, current := 0, is_new := true } (Bar.mk 2) =
      RelativeMovingAverage.next
        { length := 3, k := 1/4, current := 0, is_new := true } 2 :=
  next_close_delegates
    { length := 3, k := 1/4, current := 0, is_new := true } (Bar.mk 2) 2 rfl

/-- C7: after feeding any samples to a constructed smoother and then
resetting, feeding a sample `x` returns the same output as the very first
feed of `x` after construction. -/
theorem reset_first_feed (p : Nat) (s0 : RelativeMovingAverage)
    (h0 : RelativeMovingAverage.new p = Except.ok s0)
    (xs : List ℚ) (x : ℚ) :
    (((s0.feedAll xs).reset).next x).1 = (s0.next x).1 := by
  have hs0 : s0.is_new = true := by
    cases p with
    | zero => simp [RelativeMovingAverage.new] at h0
    | succ n =>
      have := RelativeMovingAverage.new_pos (n + 1) (Nat.succ_le_succ (Nat.zero_le n))
      rw [this] at h0
      cases h0
      rfl
  rw [RelativeMovingAverage.next_fst_of_is_new ((s0.feedAll xs).reset) x rfl,
      RelativeMovingAverage.next_fst_of_is_new s0 x hs0]

/-- Witness for C7: period 3, samples 10 and 15 fed before the reset,
then sample 4. -/
theorem reset_first_feed_witness :
    let s0 : RelativeMovingAverage :=
      { length := 3, k := 1/4, current := 0, is_new := true }
    (((s0.feedAll [10, 15]).reset).next 4).1 = (s0.next 4).1 :=
  reset_first_feed 3 { length := 3, k := 1/4, current := 0, is_new := true }
    (by norm_num [RelativeMovingAverage.new]) [10, 15] 4

/-- C8: default construction never reaches the `unwrap` panic and equals
explicit construction with period 9. -/
theorem default_eq_new9 :
    RelativeMovingAverage.new 9 = Except.ok RelativeMovingAverage.default := by
  rfl

/-- C1: for a smoother constructed with period `p ≥ 1` that has received at
least one sample (the state after a first feed and any further feeds),
feeding `x` returns `weight * x + (1 - weight) * old_value` with
`weight = 1 / (p + 1)`, and retains that value as the new state. -/
theorem next_seeded_blend (p : Nat) (hp : 1 ≤ p)
    (s0 : RelativeMovingAverage)
    (h0 : RelativeMovingAverage.new p = Except.ok s0)
    (x0 : ℚ) (xs : List ℚ) (x : ℚ) :
    (((s0.next x0).2.feedAll xs).next x).1 =
      (1 / ((p : ℚ) + 1)) * x +
        (1 - 1 / ((p : ℚ) + 1)) * ((s0.next x0).2.feedAll xs).current ∧
    (((s0.next x0).2.feedAll xs).next x).2.current =
      (((s0.next x0).2.feedAll xs).next x).1 := by
  have hk0 : s0.k = 1 / ((p : ℚ) + 1) := by
    rw [RelativeMovingAverage.new_pos p hp] at h0
    cases h0
    rfl
  have hnew : ((s0.next x0).2.feedAll xs).is_new = false :=
    RelativeMovingAverage.feedAll_is_new _ xs
      (RelativeMovingAverage.next_state_is_new s0 x0)
  have hk : ((s0.next x0).2.feedAll xs).k = 1 / ((p : ℚ) + 1) := by
    rw [RelativeMovingAverage.feedAll_k, RelativeMovingAverage.next_state_k, hk0]
  rw [RelativeMovingAverage.next_of_seeded _ x hnew, hk]
  exact ⟨rfl, rfl⟩

/-- Witness for C1: period 3, first sample 2, then sample 5 from the Seeded
state. -/
theorem next_seeded_blend_witness :
    ((((RelativeMovingAverage.mk 3 (1/((3:ℚ)+1)) 0 true).next 2).2.feedAll
        []).next 5).1 =
      (1 / ((3 : ℚ) + 1)) * 5 +
        (1 - 1 / ((3 : ℚ) + 1)) *
          (((RelativeMovingAverage.mk 3 (1/((3:ℚ)+1)) 0 true).next
              2).2.feedAll []).current ∧
    ((((RelativeMovingAverage.mk 3 (1/((3:ℚ)+1)) 0 true).next 2).2.feedAll
        []).next 5).2.current =
      ((((RelativeMovingAverage.mk 3 (1/((3:ℚ)+1)) 0 true).next 2).2.feedAll
        []).next 5).1 :=
  next_seeded_blend 3 (by decide)
    (RelativeMovingAverage.mk 3 (1/((3:ℚ)+1)) 0 true) rfl 2 [] 5

/-- C9: across every sequence of feed and reset operations on a constructed
smoother, the period stays equal to the construction argument and at least 1,
and the weight stays equal to `1 / (period + 1)` and inside `(0, 1]`. -/
theorem invariants_preserved (p : Nat) (hp : 1 ≤ p)
    (s0 : RelativeMovingAverage)
    (h0 : RelativeMovingAverage.new p = Except.ok s0) (ops : List Op) :
    (s0.applyOps ops).length = p ∧ 1 ≤ (s0.applyOps ops).length ∧
    (s0.applyOps ops).k = 1 / (((s0.applyOps ops).length : ℚ) + 1) ∧
    0 < (s0.applyOps ops).k ∧ (s0.applyOps ops).k ≤ 1 := by
  rw [RelativeMovingAverage.new_pos p hp] at h0
  cases h0
  rw [RelativeMovingAverage.applyOps_length, RelativeMovingAverage.applyOps_k]
  show p = p ∧ 1 ≤ p ∧ (1:ℚ)/((p:ℚ)+1) = 1/((p:ℚ)+1) ∧
    0 < (1:ℚ)/((p:ℚ)+1) ∧ (1:ℚ)/((p:ℚ)+1) ≤ 1
  have hp1 : (0 : ℚ) < (p : ℚ) + 1 := by positivity
  refine ⟨rfl, hp, rfl, by positivity, ?_⟩
  rw [div_le_one hp1]
  have hnn : (0 : ℚ) ≤ (p : ℚ) := Nat.cast_nonneg p
  linarith

/-- Witness for C9: period 1, one feed then one reset. -/
theorem invariants_preserved_witness :
    ((RelativeMovingAverage.mk 1 (1/((1:ℚ)+1)) 0 true).applyOps
        [Op.feed 3, Op.reset]).length = 1 ∧
    1 ≤ ((RelativeMovingAverage.mk 1 (1/((1:ℚ)+1)) 0 true).applyOps
        [Op.feed 3, Op.reset]).length ∧
    ((RelativeMovingAverage.mk 1 (1/((1:ℚ)+1)) 0 true).applyOps
        [Op.feed 3, Op.reset]).k =
      1 / ((((RelativeMovingAverage.mk 1 (1/((1:ℚ)+1)) 0 true).applyOps
        [Op.feed 3, Op.reset]).length : ℚ) + 1) ∧
    0 < ((RelativeMovingAverage.mk 1 (1/((1:ℚ)+1)) 0 true).applyOps
        [Op.feed 3, Op.reset]).k ∧
    ((RelativeMovingAverage.mk 1 (1/((1:ℚ)+1)) 0 true).applyOps
        [Op.feed 3, Op.reset]).k ≤ 1 :=
  invariants_preserved 1 (by decide)
    (RelativeMovingAverage.mk 1 (1/((1:ℚ)+1)) 0 true) rfl [Op.feed 3, Op.reset]

/-- C10: every freshly constructed state and every reset state carries
`current = 0` together with the Unseeded flag, and a reset state whose
`length` and `k` match a freshly constructed state equals it field for
field. -/
theorem unseeded_value_zero (p : Nat) (s0 : RelativeMovingAverage)
    (h0 : RelativeMovingAverage.new p = Except.ok s0)
    (s t : RelativeMovingAverage)
    (hlen : t.length = s0.length) (hk : t.k = s0.k) :
    s0.current = 0 ∧ s0.is_new = true ∧
    s.reset.current = 0 ∧ s.reset.is_new = true ∧
    t.reset = s0 := by
  cases p with
  | zero => simp [RelativeMovingAverage.new] at h0
  | succ n =>
    rw [RelativeMovingAverage.new_pos (n + 1)
      (Nat.succ_le_succ (Nat.zero_le n))] at h0
    cases h0
    refine ⟨rfl, rfl, rfl, rfl, ?_⟩
    obtain ⟨tl, tk, tc, tn⟩ := t
    simp_all [RelativeMovingAverage.reset]

/-- Witness for C10: period 3, a previously fed state reset back to the
fresh state. -/
theorem unseeded_value_zero_witness :
    (RelativeMovingAverage.mk 3 (1/((3:ℚ)+1)) 0 true).current = 0 ∧
    (RelativeMovingAverage.mk 3 (1/((3:ℚ)+1)) 0 true).is_new = true ∧
    (RelativeMovingAverage.mk 3 (1/((3:ℚ)+1)) 42 false).reset.current = 0 ∧
    (RelativeMovingAverage.mk 3 (1/((3:ℚ)+1)) 42 false).reset.is_new = true ∧
    (RelativeMovingAverage.mk 3 (1/((3:ℚ)+1)) 42 false).reset =
      RelativeMovingAverage.mk 3 (1/((3:ℚ)+1)) 0 true :=
  unseeded_value_zero 3 (RelativeMovingAverage.mk 3 (1/((3:ℚ)+1)) 0 true) rfl
    (RelativeMovingAverage.mk 3 (1/((3:ℚ)+1)) 42 false)
    (RelativeMovingAverage.mk 3 (1/((3:ℚ)+1)) 42 false) rfl rfl

end TaRs
